import Mathlib

/-!
Shallow embedding of the polygots flashcard application core: the data model
(`Card`, `Settings`), the Gemini AI generation adapter's response validation
and reduction (`services/ai/geminiAdapter.ts`), the persistence gateway's
add-card echo (`services/db/dataService.ts`), and the application state
controller (`App.tsx`: `loadData`, `handleAddCard`, `handleSaveSettings`,
`handleDeleteCard`) together with the add-card form flow
(`components/AddCardForm.tsx`: `handleSubmit`).

JavaScript objects used as string-keyed maps (`Translations`, `Examples`)
are modelled as association lists in insertion order: assigning to an
existing key updates it in place, assigning a fresh key appends.
JavaScript truthiness on strings (empty string is falsy) is modelled
explicitly where the source tests it.
-/

namespace Polygots

/-- An example sentence pair: a sentence in a source language and its
translation into the target language (`types.ts` `Example`). -/
structure Example where
  sentence : String
  translation : String
deriving DecidableEq, Repr

/-- `Translations`: JS object mapping language code to translation string,
modelled as an association list in insertion order. -/
abbrev Translations := List (String × String)

/-- `Examples`: JS object mapping language code to a list of example
sentence pairs, modelled as an association list in insertion order. -/
abbrev Examples := List (String × List Example)

/-- A flashcard row (`types.ts` `Card`; columns documented in
`dataService.ts`): `id` and `created_at` are server-assigned. -/
structure Card where
  id : String
  created_at : String
  frontText : String
  targetLanguage : String
  sourceLanguages : List String
  translations : Translations
  examples : Examples
  notes : Option String
deriving DecidableEq, Repr

/-- Per-user settings (`types.ts` `Settings`). -/
structure Settings where
  targetLanguage : String
  sourceLanguages : List String
deriving DecidableEq, Repr

/-- JS object property assignment `acc[k] = v` on an association list:
an existing key keeps its position and gets the new value, a fresh key is
appended at the end. -/
def objSet {α : Type} (acc : List (String × α)) (k : String) (v : α) :
    List (String × α) :=
  if acc.any (fun p => p.1 = k) then
    acc.map (fun p => if p.1 = k then (k, v) else p)
  else
    acc ++ [(k, v)]

/-- The keys of a JS object modelled as an association list. -/
def objKeys {α : Type} (acc : List (String × α)) : List String :=
  acc.map Prod.fst

/-- A top-level field of the parsed AI response JSON, as the adapter's
validation distinguishes them: absent or JS-falsy (`!parsedData.field`),
present and truthy but not an array (`!Array.isArray(...)`), or an array
of items. -/
inductive JsField (α : Type) where
  | missing : JsField α
  | nonArray : JsField α
  | arr (items : List α) : JsField α
deriving DecidableEq, Repr

/-- Whether a parsed field passes the adapter's
`field && Array.isArray(field)` validation. -/
def jsFieldIsArr {α : Type} : JsField α → Bool
  | .arr _ => true
  | _ => false

/-- An item of the parsed `translations` array. Each JSON field may be
absent (`none`) or present with a string value (possibly empty). -/
structure TranslationItem where
  languageCode : Option String
  translation : Option String
deriving DecidableEq, Repr

/-- An item of the parsed `examples` array. `sentences`, when present, is
an array (JS arrays are always truthy, even when empty). -/
structure ExampleItem where
  languageCode : Option String
  sentences : Option (List Example)
deriving DecidableEq, Repr

/-- The parsed JSON of an AI service response
(`JSON.parse(response.text.trim())` in `geminiAdapter.ts`). -/
structure ParsedResponse where
  translations : JsField TranslationItem
  examples : JsField ExampleItem
  notes : Option String
deriving DecidableEq, Repr

/-- `CardGenerationResult` (`services/ai/types.ts`). -/
structure CardGenerationResult where
  translations : Translations
  examples : Examples
  notes : Option String
deriving DecidableEq, Repr

/-- One step of the adapter's `parsedData.translations.reduce`:
`if (item.languageCode && item.translation) acc[item.languageCode] = item.translation`.
JS truthiness on strings: absent fields and empty strings are falsy. -/
def stepT (acc : Translations) (item : TranslationItem) : Translations :=
  match item.languageCode, item.translation with
  | some k, some v => if k ≠ "" ∧ v ≠ "" then objSet acc k v else acc
  | _, _ => acc

/-- One step of the adapter's `parsedData.examples.reduce`:
`if (item.languageCode && item.sentences) acc[item.languageCode] = item.sentences`.
A present `sentences` array is always truthy, even when empty. -/
def stepE (acc : Examples) (item : ExampleItem) : Examples :=
  match item.languageCode, item.sentences with
  | some k, some ss => if k ≠ "" then objSet acc k ss else acc
  | _, _ => acc

/-- The adapter's reduction of the parsed `translations` array into the
`Translations` mapping (initial accumulator `{}`). -/
def reduceTranslations (items : List TranslationItem) : Translations :=
  items.foldl stepT []

/-- The adapter's reduction of the parsed `examples` array into the
`Examples` mapping (initial accumulator `{}`). -/
def reduceExamples (items : List ExampleItem) : Examples :=
  items.foldl stepE []

/-- The outcome of the AI round trip as seen after the network call:
either a transport/parse failure or a parsed JSON response. -/
inductive AiOutcome where
  | transportError (msg : String) : AiOutcome
  | response (p : ParsedResponse) : AiOutcome
deriving DecidableEq, Repr

/-- `GeminiAdapter.generateCardDetails` after the prompt is sent: the
configuration guard, the structure validation
(`!parsedData.translations || !Array.isArray(parsedData.translations) || ...`
throws `Invalid JSON structure received from API.`), and the two
reductions. Errors thrown inside the `try` are rewrapped as
`Failed to generate card details from AI: <message>`. -/
def generateCardDetails (apiKeyConfigured : Bool) (outcome : AiOutcome) :
    Except String CardGenerationResult :=
  if apiKeyConfigured = false then
    .error "Gemini AI is not configured. Please set the API_KEY environment variable."
  else
    match outcome with
    | .transportError msg =>
        .error ("Failed to generate card details from AI: " ++ msg)
    | .response p =>
        match p.translations, p.examples with
        | .arr ts, .arr es =>
            .ok { translations := reduceTranslations ts
                , examples := reduceExamples es
                , notes := p.notes }
        | _, _ =>
            .error "Failed to generate card details from AI: Invalid JSON structure received from API."

/-- The controller's in-memory state (the `useState` hooks of `App.tsx`
that the consistency policy manipulates): `cards`, `settings`,
`isLoading`, and the user-visible `error` flag (`None` when clear). -/
structure AppState where
  cards : List Card
  settings : Settings
  isLoading : Bool
  error : Option String
deriving DecidableEq, Repr

/-- `App.tsx` `defaultSettings`. -/
def defaultSettings : Settings :=
  { targetLanguage := "es", sourceLanguages := ["en"] }

/-- `App.loadData`: `Promise.all([getCards(), getSettings()])`. Both
fetches must resolve; if either rejects the `catch` runs, which leaves
`cards`/`settings` untouched and sets `error`. On success both are
replaced wholesale, with `dbSettings || defaultSettings` for the
settings (`getSettings` returns `null` when no row exists). `setError(null)`
runs first, so a successful load ends with `error` clear; `setIsLoading(false)`
runs in `finally`. -/
def loadData (s : AppState) (cardsResult : Except String (List Card))
    (settingsResult : Except String (Option Settings)) : AppState :=
  match cardsResult, settingsResult with
  | .ok dbCards, .ok dbSettings =>
      { s with cards := dbCards
             , settings := dbSettings.getD defaultSettings
             , error := none
             , isLoading := false }
  | _, _ =>
      { s with error := some "Could not connect to the database. Please check your configuration and network connection."
             , isLoading := false }

/-- `App.handleAddCard`, taking the outcome of `dataService.addCard` as
input: on success the saved card is prepended to `cards`; on failure the
`catch` sets `error` and `cards` is untouched. -/
def handleAddCard (s : AppState) (result : Except String Card) : AppState :=
  match result with
  | .ok savedCard => { s with cards := savedCard :: s.cards }
  | .error _ => { s with error := some "Failed to save the new card. Please try again." }

/-- `App.handleSaveSettings`, taking the outcome of
`dataService.saveSettings`: on success the server-returned value replaces
`settings`; on failure the `catch` sets `error`. -/
def handleSaveSettings (s : AppState) (result : Except String Settings) : AppState :=
  match result with
  | .ok savedSettings => { s with settings := savedSettings }
  | .error _ => { s with error := some "Failed to save settings. Please try again." }

/-- The optimistic removal in `App.handleDeleteCard`:
`setCards(prevCards => prevCards.filter(card => card.id !== idToDelete))`,
applied before the backend call resolves. -/
def deleteOptimistic (s : AppState) (idToDelete : String) : AppState :=
  { s with cards := s.cards.filter (fun card => card.id ≠ idToDelete) }

/-- `App.handleDeleteCard`: snapshot `originalCards = cards`, apply the
optimistic removal, then await `dataService.deleteCard`. If the backend
call rejects, the `catch` sets `error` and restores the snapshot
(`setCards(originalCards)`). `backendOk` is the outcome of the backend
call. -/
def handleDeleteCard (s : AppState) (idToDelete : String) (backendOk : Bool) :
    AppState :=
  let afterRemove := deleteOptimistic s idToDelete
  if backendOk then
    afterRemove
  else
    { afterRemove with
        error := some "Failed to delete the card. Reverting changes."
      , cards := s.cards }

/-- The fields of a new card assembled by `AddCardForm.handleSubmit`
(`Omit<Card, 'id' | 'created_at'>`). -/
structure NewCardData where
  frontText : String
  targetLanguage : String
  sourceLanguages : List String
  translations : Translations
  examples : Examples
  notes : Option String
deriving DecidableEq, Repr

/-- `AddCardForm.handleSubmit` builds the new card object from the form
inputs and the adapter's generation result. -/
def buildNewCard (frontText targetLanguage : String)
    (sourceLanguages : List String) (r : CardGenerationResult) : NewCardData :=
  { frontText := frontText
  , targetLanguage := targetLanguage
  , sourceLanguages := sourceLanguages
  , translations := r.translations
  , examples := r.examples
  , notes := r.notes }

/-- The persisted row a successful insert echoes back: the submitted
fields plus the server-assigned `id` and `created_at` (the `cards` table
schema documented in `dataService.ts`: `id` auto-generated, `created_at`
defaulting to `now()`; `.insert([card]).select().single()` returns that
row). -/
def mkCard (d : NewCardData) (assignedId assignedCreatedAt : String) : Card :=
  { id := assignedId
  , created_at := assignedCreatedAt
  , frontText := d.frontText
  , targetLanguage := d.targetLanguage
  , sourceLanguages := d.sourceLanguages
  , translations := d.translations
  , examples := d.examples
  , notes := d.notes }

/-- `dataService.addCard` as seen by the controller: on success the
echoed row with server-assigned `id`/`created_at`, on failure a thrown
error (`handleSupabaseError` or the no-data guard). `insertOk` is whether
the backend write succeeded. -/
def gatewayAddCard (d : NewCardData) (insertOk : Bool)
    (assignedId assignedCreatedAt : String) : Except String Card :=
  if insertOk then .ok (mkCard d assignedId assignedCreatedAt)
  else .error "Failed to add card, no data returned."

/-- The net result of one pass through `AddCardForm.handleSubmit` wired
to `App.handleAddCard`: the controller state afterwards, the card the
backend persisted (if any), and whether `dataService.addCard` was
reached at all. -/
structure SubmitResult where
  state : AppState
  saved : Option Card
  persistCalled : Bool
deriving DecidableEq, Repr

/-- The add-card flow: `AddCardForm.handleSubmit` calls
`aiAdapter.generateCardDetails`; if generation throws, the form's `catch`
shows the message and `onAddCard` is never called, so the controller
state and the backend are untouched. Otherwise the new card data is
passed to `App.handleAddCard`, which awaits `dataService.addCard` and
prepends the saved card on success or sets `error` on failure. -/
def handleSubmit (apiKeyConfigured : Bool) (outcome : AiOutcome)
    (frontText targetLanguage : String) (sourceLanguages : List String)
    (insertOk : Bool) (assignedId assignedCreatedAt : String)
    (s : AppState) : SubmitResult :=
  match generateCardDetails apiKeyConfigured outcome with
  | .error _ => { state := s, saved := none, persistCalled := false }
  | .ok r =>
      let d := buildNewCard frontText targetLanguage sourceLanguages r
      match gatewayAddCard d insertOk assignedId assignedCreatedAt with
      | .ok savedCard =>
          { state := { s with cards := savedCard :: s.cards }
          , saved := some savedCard
          , persistCalled := true }
      | .error _ =>
          { state := { s with error := some "Failed to save the new card. Please try again." }
          , saved := none
          , persistCalled := true }

/-- A fresh controller state right after sign-in, before any cards. -/
def initState : AppState :=
  { cards := [], settings := defaultSettings, isLoading := false, error := none }

/-- A concrete card used in fixtures. -/
def cardA : Card :=
  { id := "a", created_at := "t1", frontText := "uno", targetLanguage := "es"
  , sourceLanguages := ["en"], translations := [("en", "one")]
  , examples := [], notes := none }

/-- A second concrete card used in fixtures. -/
def cardB : Card :=
  { id := "b", created_at := "t2", frontText := "dos", targetLanguage := "es"
  , sourceLanguages := ["en"], translations := [("en", "two")]
  , examples := [], notes := none }

/-- A controller state holding two cards. -/
def twoCardState : AppState :=
  { cards := [cardA, cardB], settings := defaultSettings
  , isLoading := false, error := none }

/-- A controller state in the Error condition after some failed operation. -/
def errState : AppState :=
  { cards := [], settings := defaultSettings, isLoading := false
  , error := some "previous failure" }

/-- A concrete card a successful add could return. -/
def sampleCard : Card :=
  { id := "c1", created_at := "t3", frontText := "hola", targetLanguage := "es"
  , sourceLanguages := ["en"], translations := [("en", "hello")]
  , examples := [("en", [{ sentence := "Hola.", translation := "Hello." }])]
  , notes := none }

/-- A well-shaped AI response whose translation entry carries a language
code outside the user's source languages. -/
def badAiResponse : ParsedResponse :=
  { translations := .arr [{ languageCode := some "zz", translation := some "x" }]
  , examples := .arr []
  , notes := none }

/-- The card the add-card flow persists from `badAiResponse` with source
languages `["en"]`. -/
def cexCard : Card :=
  mkCard (buildNewCard "hola" "es" ["en"]
    { translations := [("zz", "x")], examples := [], notes := none }) "id-1" "t1"

/-- A well-shaped AI response whose entries all carry source-language
codes. -/
def goodAiResponse : ParsedResponse :=
  { translations := .arr [{ languageCode := some "en", translation := some "to learn" }]
  , examples := .arr
      [{ languageCode := some "en"
       , sentences := some [{ sentence := "Quiero aprender.", translation := "I want to learn." }] }]
  , notes := none }

/-- The card the add-card flow persists from `goodAiResponse` with source
languages `["en"]`. -/
def goodCard : Card :=
  mkCard (buildNewCard "aprender" "es" ["en"]
    { translations := [("en", "to learn")]
    , examples := [("en", [{ sentence := "Quiero aprender.", translation := "I want to learn." }])]
    , notes := none }) "id-2" "t2"

/-- A parsed AI response whose top-level `examples` field is absent. -/
def missingExamplesResponse : ParsedResponse :=
  { translations := .arr [{ languageCode := some "en", translation := some "hello" }]
  , examples := .missing
  , notes := none }

/-- A translation item with both fields present but an empty language
code. -/
def bothFieldsItem : TranslationItem :=
  { languageCode := some "", translation := some "x" }

/-- A translations array mixing an empty-string entry with a kept one. -/
def demoTranslationItems : List TranslationItem :=
  [ { languageCode := some "", translation := some "x" }
  , { languageCode := some "en", translation := some "hello" } ]

/-- An examples array mixing an empty-string entry with a kept one. -/
def demoExampleItems : List ExampleItem :=
  [ { languageCode := some "", sentences := some [{ sentence := "a", translation := "b" }] }
  , { languageCode := some "en", sentences := some [{ sentence := "c", translation := "d" }] } ]

/-- Assigning a key to a JS object leaves the key set equal when the key
was already present, and appends the key otherwise. -/
lemma objKeys_objSet {α : Type} (acc : List (String × α)) (k : String) (v : α) :
    objKeys (objSet acc k v) =
      if k ∈ objKeys acc then objKeys acc else objKeys acc ++ [k] := by
  unfold objSet
  have hany : (acc.any (fun p => p.1 = k) = true) ↔ k ∈ objKeys acc := by
    simp only [List.any_eq_true, decide_eq_true_eq, objKeys, List.mem_map]
  by_cases h : k ∈ objKeys acc
  · rw [if_pos (hany.mpr h), if_pos h]
    unfold objKeys
    rw [List.map_map]
    apply List.map_congr_left
    intro p _
    by_cases hk : p.1 = k <;> simp [hk]
  · rw [if_neg (fun hc => h (hany.mp hc)), if_neg h]
    unfold objKeys
    rw [List.map_append]
    rfl

/-- Membership in the key set after a JS object assignment. -/
lemma mem_objKeys_objSet {α : Type} (acc : List (String × α)) (k : String)
    (v : α) (a : String) :
    a ∈ objKeys (objSet acc k v) ↔ a = k ∨ a ∈ objKeys acc := by
  rw [objKeys_objSet]
  by_cases h : k ∈ objKeys acc
  · rw [if_pos h]
    constructor
    · intro ha; exact Or.inr ha
    · rintro (rfl | ha)
      · exact h
      · exact ha
  · rw [if_neg h]
    simp [List.mem_append, or_comm]

/-- Every binding of the object after a JS assignment is either an old
binding or the one just assigned. -/
lemma mem_objSet_elim {α : Type} {acc : List (String × α)} {k a : String}
    {v b : α} (h : (a, b) ∈ objSet acc k v) :
    (a, b) ∈ acc ∨ (a = k ∧ b = v) := by
  unfold objSet at h
  by_cases hc : acc.any (fun p => p.1 = k)
  · rw [if_pos hc, List.mem_map] at h
    obtain ⟨p, hp, hpe⟩ := h
    by_cases hk : p.1 = k
    · rw [if_pos hk] at hpe
      cases hpe
      exact Or.inr ⟨rfl, rfl⟩
    · rw [if_neg hk] at hpe
      exact Or.inl (hpe ▸ hp)
  · rw [if_neg hc, List.mem_append] at h
    rcases h with h | h
    · exact Or.inl h
    · rw [List.mem_singleton] at h
      cases h
      exact Or.inr ⟨rfl, rfl⟩

/-- One translations-reduction step adds exactly the key of a kept item:
both fields present and non-empty (JS-truthy). -/
lemma mem_objKeys_stepT (acc : Translations) (i : TranslationItem) (a : String) :
    a ∈ objKeys (stepT acc i) ↔
      a ∈ objKeys acc ∨
        (i.languageCode = some a ∧ a ≠ "" ∧ ∃ v, i.translation = some v ∧ v ≠ "") := by
  unfold stepT
  cases hL : i.languageCode with
  | none => simp
  | some k =>
      cases hT : i.translation with
      | none => simp
      | some v =>
          dsimp only
          by_cases hkv : k ≠ "" ∧ v ≠ ""
          · rw [if_pos hkv, mem_objKeys_objSet]
            constructor
            · rintro (rfl | h)
              · exact Or.inr ⟨rfl, hkv.1, v, rfl, hkv.2⟩
              · exact Or.inl h
            · rintro (h | ⟨hka, _, _⟩)
              · exact Or.inr h
              · cases hka; exact Or.inl rfl
          · rw [if_neg hkv]
            constructor
            · intro h; exact Or.inl h
            · rintro (h | ⟨hka, hne, v2, hv2, hv2ne⟩)
              · exact h
              · cases hka; cases hv2
                exact absurd ⟨hne, hv2ne⟩ hkv

/-- One examples-reduction step adds exactly the key of a kept item:
language code present and non-empty, sentences field present (a JS array
is truthy even when empty). -/
lemma mem_objKeys_stepE (acc : Examples) (i : ExampleItem) (a : String) :
    a ∈ objKeys (stepE acc i) ↔
      a ∈ objKeys acc ∨
        (i.languageCode = some a ∧ a ≠ "" ∧ ∃ ss, i.sentences = some ss) := by
  unfold stepE
  cases hL : i.languageCode with
  | none => simp
  | some k =>
      cases hT : i.sentences with
      | none => simp
      | some ss =>
          dsimp only
          by_cases hk : k ≠ ""
          · rw [if_pos hk, mem_objKeys_objSet]
            constructor
            · rintro (rfl | h)
              · exact Or.inr ⟨rfl, hk, ss, rfl⟩
              · exact Or.inl h
            · rintro (h | ⟨hka, _, _⟩)
              · exact Or.inr h
              · cases hka; exact Or.inl rfl
          · rw [if_neg hk]
            constructor
            · intro h; exact Or.inl h
            · rintro (h | ⟨hka, hne, _⟩)
              · exact h
              · cases hka; exact absurd hne hk

/-- Keys of the translations reduction over any accumulator. -/
lemma mem_objKeys_foldT (items : List TranslationItem) :
    ∀ (acc : Translations) (a : String),
      a ∈ objKeys (items.foldl stepT acc) ↔
        a ∈ objKeys acc ∨
          ∃ item ∈ items, item.languageCode = some a ∧ a ≠ "" ∧
            ∃ v, item.translation = some v ∧ v ≠ "" := by
  induction items with
  | nil => intro acc a; simp
  | cons i is ih =>
      intro acc a
      rw [List.foldl_cons, ih, mem_objKeys_stepT]
      simp [List.exists_mem_cons_iff, or_assoc]

/-- Keys of the examples reduction over any accumulator. -/
lemma mem_objKeys_foldE (items : List ExampleItem) :
    ∀ (acc : Examples) (a : String),
      a ∈ objKeys (items.foldl stepE acc) ↔
        a ∈ objKeys acc ∨
          ∃ item ∈ items, item.languageCode = some a ∧ a ≠ "" ∧
            ∃ ss, item.sentences = some ss := by
  induction items with
  | nil => intro acc a; simp
  | cons i is ih =>
      intro acc a
      rw [List.foldl_cons, ih, mem_objKeys_stepE]
      simp [List.exists_mem_cons_iff, or_assoc]

/-- Every binding produced by a translations-reduction step comes from
the accumulator or from a kept item. -/
lemma mem_stepT_elim {acc : Translations} {i : TranslationItem}
    {a b : String} (h : (a, b) ∈ stepT acc i) :
    (a, b) ∈ acc ∨
      (i.languageCode = some a ∧ i.translation = some b ∧ a ≠ "" ∧ b ≠ "") := by
  unfold stepT at h
  cases hL : i.languageCode with
  | none => rw [hL] at h; exact Or.inl h
  | some k =>
      cases hT : i.translation with
      | none => rw [hL, hT] at h; exact Or.inl h
      | some v =>
          rw [hL, hT] at h
          dsimp only at h
          by_cases hkv : k ≠ "" ∧ v ≠ ""
          · rw [if_pos hkv] at h
            rcases mem_objSet_elim h with h2 | ⟨rfl, rfl⟩
            · exact Or.inl h2
            · exact Or.inr ⟨rfl, rfl, hkv.1, hkv.2⟩
          · rw [if_neg hkv] at h
            exact Or.inl h

/-- Every binding produced by an examples-reduction step comes from the
accumulator or from a kept item. -/
lemma mem_stepE_elim {acc : Examples} {i : ExampleItem}
    {a : String} {ss : List Example} (h : (a, ss) ∈ stepE acc i) :
    (a, ss) ∈ acc ∨
      (i.languageCode = some a ∧ i.sentences = some ss ∧ a ≠ "") := by
  unfold stepE at h
  cases hL : i.languageCode with
  | none => rw [hL] at h; exact Or.inl h
  | some k =>
      cases hT : i.sentences with
      | none => rw [hL, hT] at h; exact Or.inl h
      | some ss2 =>
          rw [hL, hT] at h
          dsimp only at h
          by_cases hk : k ≠ ""
          · rw [if_pos hk] at h
            rcases mem_objSet_elim h with h2 | ⟨rfl, rfl⟩
            · exact Or.inl h2
            · exact Or.inr ⟨rfl, rfl, hk⟩
          · rw [if_neg hk] at h
            exact Or.inl h

/-- Every binding of the translations reduction over any accumulator
comes from the accumulator or from a kept item. -/
lemma mem_foldT_elim (items : List TranslationItem) :
    ∀ (acc : Translations) (a b : String),
      (a, b) ∈ items.foldl stepT acc →
        (a, b) ∈ acc ∨
          ∃ item ∈ items, item.languageCode = some a ∧
            item.translation = some b ∧ a ≠ "" ∧ b ≠ "" := by
  induction items with
  | nil => intro acc a b h; exact Or.inl (by simpa using h)
  | cons i is ih =>
      intro acc a b h
      rw [List.foldl_cons] at h
      rcases ih (stepT acc i) a b h with h2 | ⟨item, hmem, hrest⟩
      · rcases mem_stepT_elim h2 with h3 | h3
        · exact Or.inl h3
        · exact Or.inr ⟨i, List.mem_cons_self i is, h3⟩
      · exact Or.inr ⟨item, List.mem_cons_of_mem i hmem, hrest⟩

/-- Every binding of the examples reduction over any accumulator comes
from the accumulator or from a kept item. -/
lemma mem_foldE_elim (items : List ExampleItem) :
    ∀ (acc : Examples) (a : String) (ss : List Example),
      (a, ss) ∈ items.foldl stepE acc →
        (a, ss) ∈ acc ∨
          ∃ item ∈ items, item.languageCode = some a ∧
            item.sentences = some ss ∧ a ≠ "" := by
  induction items with
  | nil => intro acc a ss h; exact Or.inl (by simpa using h)
  | cons i is ih =>
      intro acc a ss h
      rw [List.foldl_cons] at h
      rcases ih (stepE acc i) a ss h with h2 | ⟨item, hmem, hrest⟩
      · rcases mem_stepE_elim h2 with h3 | h3
        · exact Or.inl h3
        · exact Or.inr ⟨i, List.mem_cons_self i is, h3⟩
      · exact Or.inr ⟨item, List.mem_cons_of_mem i hmem, hrest⟩

/-- C6: for every AI service response whose parsed JSON lacks the
top-level `translations` or `examples` field, or where either is not
list-shaped, generation fails with the malformed-structure error
(`Invalid JSON structure received from API.`, the realization of
`MalformedResponseError`), and the add-card flow never reaches the
persistence call, so no card is created as a side effect. -/
theorem generateCardDetails_malformed_no_persist
    (p : ParsedResponse)
    (hbad : jsFieldIsArr p.translations = false ∨ jsFieldIsArr p.examples = false)
    (frontText targetLanguage : String) (sourceLanguages : List String)
    (insertOk : Bool) (assignedId assignedCreatedAt : String) (s : AppState) :
    generateCardDetails true (.response p) =
      .error "Failed to generate card details from AI: Invalid JSON structure received from API." ∧
    handleSubmit true (.response p) frontText targetLanguage sourceLanguages
        insertOk assignedId assignedCreatedAt s =
      { state := s, saved := none, persistCalled := false } := by
  have hgen : generateCardDetails true (.response p) =
      .error "Failed to generate card details from AI: Invalid JSON structure received from API." := by
    cases hpt : p.translations <;> cases hpe : p.examples <;>
      simp_all [generateCardDetails, jsFieldIsArr]
  exact ⟨hgen, by simp [handleSubmit, hgen]⟩

/-- C6 witness: the schema-violating response with `examples` absent is
rejected and the backend is never called. -/
theorem generateCardDetails_malformed_no_persist_witness :
    (jsFieldIsArr missingExamplesResponse.examples = false) ∧
    generateCardDetails true (.response missingExamplesResponse) =
      .error "Failed to generate card details from AI: Invalid JSON structure received from API." ∧
    handleSubmit true (.response missingExamplesResponse) "hola" "es" ["en"]
        true "id-1" "t1" initState =
      { state := initState, saved := none, persistCalled := false } := by
  refine ⟨rfl, ?_⟩
  exact generateCardDetails_malformed_no_persist missingExamplesResponse
    (Or.inr rfl) "hola" "es" ["en"] true "id-1" "t1" initState

/-- C7 counterexample: the entry `{languageCode: "", translation: "x"}`
has both fields present, yet the reduction produces an empty mapping, so
the mapping does not include exactly the entries that have both fields —
JS truthiness also drops present-but-empty strings. -/
theorem reduce_includes_exactly_cex :
    bothFieldsItem.languageCode.isSome = true ∧
    bothFieldsItem.translation.isSome = true ∧
    reduceTranslations [bothFieldsItem] = [] := by decide

/-- C7 as amended: the reduction includes exactly those entries whose
`languageCode` and `translation` (for examples: `sentences`) fields are
JS-truthy — present and, for strings, non-empty; all other entries are
skipped without error. -/
theorem reduce_keys_iff_truthy_fields
    (items : List TranslationItem) (eitems : List ExampleItem) (k : String) :
    (k ∈ objKeys (reduceTranslations items) ↔
      ∃ item ∈ items, item.languageCode = some k ∧ k ≠ "" ∧
        ∃ v, item.translation = some v ∧ v ≠ "") ∧
    (k ∈ objKeys (reduceExamples eitems) ↔
      ∃ item ∈ eitems, item.languageCode = some k ∧ k ≠ "" ∧
        ∃ ss, item.sentences = some ss) := by
  constructor
  · rw [reduceTranslations, mem_objKeys_foldT]
    simp [objKeys]
  · rw [reduceExamples, mem_objKeys_foldE]
    simp [objKeys]

/-- C10: an entry whose `languageCode` or `translation` is the empty
string (present but empty, hence JS-falsy) is skipped: every binding of
the resulting mapping comes from an entry with both strings present and
non-empty, and likewise every examples binding comes from an entry with
a present, non-empty language code. -/
theorem reduce_skips_empty_string_fields
    (items : List TranslationItem) (eitems : List ExampleItem)
    (k v : String) (ss : List Example) :
    ((k, v) ∈ reduceTranslations items →
      ∃ item ∈ items, item.languageCode = some k ∧ item.translation = some v ∧
        k ≠ "" ∧ v ≠ "") ∧
    ((k, ss) ∈ reduceExamples eitems →
      ∃ item ∈ eitems, item.languageCode = some k ∧ item.sentences = some ss ∧
        k ≠ "") := by
  constructor
  · intro h
    rcases mem_foldT_elim items [] k v h with h2 | h2
    · simp at h2
    · exact h2
  · intro h
    rcases mem_foldE_elim eitems [] k ss h with h2 | h2
    · simp at h2
    · exact h2

/-- C10 witness: on arrays mixing empty-string entries with kept ones,
the kept binding is traced back to a non-empty entry. -/
theorem reduce_skips_empty_string_fields_witness :
    ("en", "hello") ∈ reduceTranslations demoTranslationItems ∧
    (∃ item ∈ demoTranslationItems, item.languageCode = some "en" ∧
      item.translation = some "hello" ∧ "en" ≠ "" ∧ "hello" ≠ "") ∧
    (∃ item ∈ demoExampleItems, item.languageCode = some "en" ∧
      item.sentences = some [{ sentence := "c", translation := "d" }] ∧ "en" ≠ "") := by
  refine ⟨by decide, ?_, ?_⟩
  · exact (reduce_skips_empty_string_fields demoTranslationItems demoExampleItems
      "en" "hello" [{ sentence := "c", translation := "d" }]).1 (by decide)
  · exact (reduce_skips_empty_string_fields demoTranslationItems demoExampleItems
      "en" "hello" [{ sentence := "c", translation := "d" }]).2 (by decide)

/-- C2: for every in-memory cards list and every id in it, delete-card
removes every card with that id from the in-memory list immediately
(before the backend call resolves) while keeping all other cards, and if
the backend delete then fails, the controller restores exactly the
pre-deletion list snapshot — same elements in the same order, the very
list object, not a re-fetch — and surfaces an error. -/
theorem handleDeleteCard_optimistic_exact_rollback
    (s : AppState) (idToDelete : String)
    (hmem : idToDelete ∈ s.cards.map Card.id) :
    ((deleteOptimistic s idToDelete).cards.length < s.cards.length) ∧
    (∀ c ∈ (deleteOptimistic s idToDelete).cards, c.id ≠ idToDelete) ∧
    (∀ c ∈ s.cards, c.id ≠ idToDelete → c ∈ (deleteOptimistic s idToDelete).cards) ∧
    (handleDeleteCard s idToDelete true).cards = (deleteOptimistic s idToDelete).cards ∧
    (handleDeleteCard s idToDelete false).cards = s.cards ∧
    (handleDeleteCard s idToDelete false).error =
      some "Failed to delete the card. Reverting changes." := by
  refine ⟨?_, ?_, ?_, rfl, rfl, rfl⟩
  · rw [List.mem_map] at hmem
    obtain ⟨c, hc, hcid⟩ := hmem
    apply List.length_filter_lt_length_iff_exists.mpr
    exact ⟨c, hc, by simp [hcid]⟩
  · intro c hc
    have := (List.mem_filter.mp hc).2
    simpa using this
  · intro c hc hne
    exact List.mem_filter.mpr ⟨hc, by simpa using hne⟩

/-- C2 witness: deleting card `a` from a two-card list and losing the
backend call restores the original list. -/
theorem handleDeleteCard_optimistic_exact_rollback_witness :
    "a" ∈ twoCardState.cards.map Card.id ∧
    (handleDeleteCard twoCardState "a" false).cards = twoCardState.cards ∧
    (handleDeleteCard twoCardState "a" false).error =
      some "Failed to delete the card. Reverting changes." := by
  refine ⟨by decide, ?_, ?_⟩
  · exact (handleDeleteCard_optimistic_exact_rollback twoCardState "a"
      (by decide)).2.2.2.2.1
  · exact (handleDeleteCard_optimistic_exact_rollback twoCardState "a"
      (by decide)).2.2.2.2.2

/-- C3 counterexample: from a state whose `error` flag is set, a
successful add-card operation (the card is prepended) leaves the `error`
flag set, and so does a successful save-settings: no handler clears
`error` on success, so the next successful operation does not clear the
flag as claimed. -/
theorem error_not_cleared_by_success_cex :
    (handleAddCard errState (.ok sampleCard)).cards = [sampleCard] ∧
    (handleAddCard errState (.ok sampleCard)).error = some "previous failure" ∧
    (handleSaveSettings errState (.ok defaultSettings)).settings = defaultSettings ∧
    (handleSaveSettings errState (.ok defaultSettings)).error = some "previous failure" := by
  decide

/-- C3 as amended: every operation remains invocable from a state with
`error` set (no handler gates on it), but successful add-card,
save-settings and delete-card leave the `error` flag exactly as it was;
only the reload operation clears it (it resets `error` at its start, so
a successful reload ends with `error` clear). -/
theorem error_flag_policy
    (s : AppState) (hs : s.error.isSome = true)
    (c : Card) (stg : Settings) (idToDelete : String)
    (dbCards : List Card) (dbSettings : Option Settings) :
    (handleAddCard s (.ok c)).error = s.error ∧
    (handleAddCard s (.ok c)).error.isSome = true ∧
    (handleSaveSettings s (.ok stg)).error = s.error ∧
    (handleDeleteCard s idToDelete true).error = s.error ∧
    (loadData s (.ok dbCards) (.ok dbSettings)).error = none :=
  ⟨rfl, hs, rfl, rfl, rfl⟩

/-- C3 witness: the amended policy at a concrete errored state. -/
theorem error_flag_policy_witness :
    errState.error.isSome = true ∧
    (handleAddCard errState (.ok sampleCard)).error = errState.error ∧
    (loadData errState (.ok []) (.ok none)).error = none := by
  refine ⟨rfl, ?_, ?_⟩
  · exact (error_flag_policy errState rfl sampleCard defaultSettings "a" [] none).1
  · exact (error_flag_policy errState rfl sampleCard defaultSettings "a" [] none).2.2.2.2

/-- C4: the initial load commits all-or-nothing: if either the cards
fetch or the settings fetch fails, neither in-memory `cards` nor
`settings` is replaced and `error` is set; only if both succeed are both
replaced wholesale (with the default settings standing in for a missing
settings row) and `error` ends clear. -/
theorem loadData_all_or_nothing
    (s : AppState) (cardsResult : Except String (List Card))
    (settingsResult : Except String (Option Settings)) :
    (((∃ e, cardsResult = .error e) ∨ (∃ e, settingsResult = .error e)) →
      (loadData s cardsResult settingsResult).cards = s.cards ∧
      (loadData s cardsResult settingsResult).settings = s.settings ∧
      (loadData s cardsResult settingsResult).error.isSome = true) ∧
    (∀ dbCards dbSettings, cardsResult = .ok dbCards → settingsResult = .ok dbSettings →
      (loadData s cardsResult settingsResult).cards = dbCards ∧
      (loadData s cardsResult settingsResult).settings = dbSettings.getD defaultSettings ∧
      (loadData s cardsResult settingsResult).error = none) := by
  constructor
  · intro hbad
    cases cardsResult with
    | error e => exact ⟨rfl, rfl, rfl⟩
    | ok dbCards =>
        cases settingsResult with
        | error e => exact ⟨rfl, rfl, rfl⟩
        | ok dbSettings =>
            rcases hbad with ⟨e, he⟩ | ⟨e, he⟩ <;> exact Except.noConfusion he
  · intro dbCards dbSettings h1 h2
    subst h1
    subst h2
    exact ⟨rfl, rfl, rfl⟩

/-- C4 witness: a failed cards fetch leaves a two-card state untouched
with the error set; a doubly successful fetch replaces both. -/
theorem loadData_all_or_nothing_witness :
    (loadData twoCardState (.error "boom") (.ok (some defaultSettings))).cards = twoCardState.cards ∧
    (loadData twoCardState (.error "boom") (.ok (some defaultSettings))).settings = twoCardState.settings ∧
    (loadData twoCardState (.error "boom") (.ok (some defaultSettings))).error.isSome = true ∧
    (loadData twoCardState (.ok [sampleCard]) (.ok none)).cards = [sampleCard] ∧
    (loadData twoCardState (.ok [sampleCard]) (.ok none)).error = none := by
  have h1 := (loadData_all_or_nothing twoCardState (.error "boom")
    (.ok (some defaultSettings))).1 (Or.inl ⟨"boom", rfl⟩)
  have h2 := (loadData_all_or_nothing twoCardState (.ok [sampleCard])
    (.ok none)).2 [sampleCard] none rfl rfl
  exact ⟨h1.1, h1.2.1, h1.2.2, h2.1, h2.2.2⟩

/-- C5: add card performs no optimistic insertion: the saved card enters
the in-memory list only through the success branch, prepended as the
first element; if persistence fails, the in-memory cards list is
unchanged and an error is surfaced. -/
theorem handleAddCard_no_optimistic_insert
    (s : AppState) (d : NewCardData) (assignedId assignedCreatedAt : String) :
    (handleAddCard s (gatewayAddCard d true assignedId assignedCreatedAt)).cards =
      mkCard d assignedId assignedCreatedAt :: s.cards ∧
    (handleAddCard s (gatewayAddCard d true assignedId assignedCreatedAt)).settings = s.settings ∧
    (handleAddCard s (gatewayAddCard d false assignedId assignedCreatedAt)).cards = s.cards ∧
    (handleAddCard s (gatewayAddCard d false assignedId assignedCreatedAt)).error.isSome = true :=
  ⟨rfl, rfl, rfl, rfl⟩

/-- C8: invoking delete-card with an id not present in the in-memory
list leaves the whole controller state unchanged and raises no error
when the backend call succeeds; a backend transport failure is still
signalled. -/
theorem handleDeleteCard_absent_id_noop
    (s : AppState) (idToDelete : String)
    (habs : ∀ c ∈ s.cards, c.id ≠ idToDelete) :
    handleDeleteCard s idToDelete true = s ∧
    (handleDeleteCard s idToDelete false).error.isSome = true := by
  refine ⟨?_, rfl⟩
  have hf : s.cards.filter (fun card => card.id ≠ idToDelete) = s.cards :=
    List.filter_eq_self.mpr (fun c hc => by simpa using habs c hc)
  show deleteOptimistic s idToDelete = s
  rw [deleteOptimistic, hf]

/-- C8 witness: deleting the absent id `zzz` from a two-card list is an
exact no-op. -/
theorem handleDeleteCard_absent_id_noop_witness :
    (∀ c ∈ twoCardState.cards, c.id ≠ "zzz") ∧
    handleDeleteCard twoCardState "zzz" true = twoCardState :=
  ⟨by decide, (handleDeleteCard_absent_id_noop twoCardState "zzz" (by decide)).1⟩

/-- C9: when the initial load succeeds but the settings fetch returns
`null` (no settings row yet for this user), the controller replaces the
in-memory settings with the built-in default
`{targetLanguage: "es", sourceLanguages: ["en"]}`. -/
theorem loadData_null_settings_default (s : AppState) (dbCards : List Card) :
    (loadData s (.ok dbCards) (.ok none)).settings =
      { targetLanguage := "es", sourceLanguages := ["en"] } ∧
    (loadData s (.ok dbCards) (.ok none)).settings = defaultSettings :=
  ⟨rfl, rfl⟩

/-- C1 counterexample: a successful add-card flow (well-shaped AI
response, successful persistence) in which the AI response carries the
language code `zz` while the user's source languages are `["en"]`
produces a persisted card whose `translations` keys are not a subset of
its `sourceLanguages` — the client never filters the AI's codes. -/
theorem addCard_translations_subset_cex :
    (handleSubmit true (.response badAiResponse) "hola" "es" ["en"]
        true "id-1" "t1" initState).saved = some cexCard ∧
    (handleSubmit true (.response badAiResponse) "hola" "es" ["en"]
        true "id-1" "t1" initState).state.cards = [cexCard] ∧
    cexCard.sourceLanguages = ["en"] ∧
    "zz" ∈ objKeys cexCard.translations ∧
    ¬ objKeys cexCard.translations ⊆ cexCard.sourceLanguages := by
  decide

/-- C1 as amended: whenever every language code appearing in the parsed
AI response's `translations` and `examples` entries belongs to the
submitted `sourceLanguages`, the card persisted by a successful add-card
flow has `translations` and `examples` keys that are a subset of its
`sourceLanguages`; the flow itself performs no filtering, so the subset
invariant holds exactly as far as the AI respects the prompt. -/
theorem addCard_keys_subset_of_response_codes_in_sources
    (p : ParsedResponse) (ts : List TranslationItem) (es : List ExampleItem)
    (hts : p.translations = .arr ts) (hes : p.examples = .arr es)
    (sourceLanguages : List String)
    (hT : ∀ item ∈ ts, ∀ k, item.languageCode = some k → k ∈ sourceLanguages)
    (hE : ∀ item ∈ es, ∀ k, item.languageCode = some k → k ∈ sourceLanguages)
    (frontText targetLanguage assignedId assignedCreatedAt : String)
    (s : AppState) (c : Card)
    (hsaved : (handleSubmit true (.response p) frontText targetLanguage
        sourceLanguages true assignedId assignedCreatedAt s).saved = some c) :
    objKeys c.translations ⊆ sourceLanguages ∧
    objKeys c.examples ⊆ sourceLanguages ∧
    c.sourceLanguages = sourceLanguages := by
  have hc : c = mkCard (buildNewCard frontText targetLanguage sourceLanguages
      { translations := reduceTranslations ts
      , examples := reduceExamples es
      , notes := p.notes }) assignedId assignedCreatedAt := by
    simp [handleSubmit, generateCardDetails, hts, hes, gatewayAddCard] at hsaved
    exact hsaved.symm
  subst hc
  refine ⟨?_, ?_, rfl⟩
  · intro k hk
    simp only [mkCard, buildNewCard] at hk
    rw [reduceTranslations, mem_objKeys_foldT] at hk
    rcases hk with hk | ⟨item, hitem, hcode, _, _⟩
    · simp [objKeys] at hk
    · exact hT item hitem k hcode
  · intro k hk
    simp only [mkCard, buildNewCard] at hk
    rw [reduceExamples, mem_objKeys_foldE] at hk
    rcases hk with hk | ⟨item, hitem, hcode, _, _⟩
    · simp [objKeys] at hk
    · exact hE item hitem k hcode

/-- C1 witness: a compliant AI response over source languages `["en"]`
yields a card whose mapping keys are a subset of its source languages. -/
theorem addCard_keys_subset_witness :
    (handleSubmit true (.response goodAiResponse) "aprender" "es" ["en"]
        true "id-2" "t2" initState).saved = some goodCard ∧
    objKeys goodCard.translations ⊆ ["en"] ∧
    objKeys goodCard.examples ⊆ ["en"] := by
  have h := addCard_keys_subset_of_response_codes_in_sources goodAiResponse
    [{ languageCode := some "en", translation := some "to learn" }]
    [{ languageCode := some "en"
     , sentences := some [{ sentence := "Quiero aprender.", translation := "I want to learn." }] }]
    rfl rfl ["en"]
    (by
      intro item hitem k hk
      rw [List.mem_singleton] at hitem
      subst hitem
      injection hk with h2
      subst h2
      exact List.mem_singleton.mpr rfl)
    (by
      intro item hitem k hk
      rw [List.mem_singleton] at hitem
      subst hitem
      injection hk with h2
      subst h2
      exact List.mem_singleton.mpr rfl)
    "aprender" "es" "id-2" "t2" initState goodCard (by decide)
  exact ⟨by decide, h.1, h.2.1⟩

end Polygots
